import Mathlib

/-!
Verification development for the kuzu-mcp-server protocol dispatch and
schema-reflection layer (`src/index.js`), as a shallow embedding in Lean.

The embedded graph engine (the `kuzu` connection object) is an external
collaborator: it is modelled as a record of response functions — a result for
the catalog-listing call, per-table metadata calls, and a generic
statement-execution call whose outcome distinguishes a failure at `query()`
time from a failure while draining rows with `getAll()`.  Thrown JavaScript
exceptions are modelled with `Except String`; an `Except.error` escaping a
handler models a rejected promise, i.e. a transport-level protocol error,
while a returned response value with `isError = true` models an
operation-level failure.
-/

namespace KuzuMcp

/-- Scalar values appearing in result rows.  JavaScript distinguishes bigint
values (handled by `bigIntReplacer`) from ordinary numbers. -/
inductive JsVal where
  | str (s : String)
  | num (n : Int)
  | bigint (n : Int)
  | bool (b : Bool)
  | null
deriving Repr, DecidableEq

/-- One result row: a mapping from column name to scalar value, in column
order. -/
abbrev Row := List (String × JsVal)

/-- Outcome of `connection.query(statement)` followed by `getAll()`:
`queryError` models a rejection of the `query()` call itself (no cursor is
produced), `drainError` a rejection of `getAll()` after the cursor exists. -/
structure QueryOutcome where
  queryError : Option String
  rows : List Row
  drainError : Option String
deriving Repr, DecidableEq

/-- A row of `CALL show_tables()`: the fields of it read by `index.js`. -/
structure CatTable where
  name : String
  type : String
deriving Repr, DecidableEq

/-- A row of `CALL TABLE_INFO(name)`: the fields read by `index.js`
(`name`, `type` and the `primary key` column). -/
structure RawProp where
  name : String
  type : String
  primaryKey : Bool
deriving Repr, DecidableEq

/-- A row of `CALL SHOW_CONNECTION(name)`: source and destination table
names. -/
structure RawConn where
  src : String
  dst : String
deriving Repr, DecidableEq

/-- The engine connection handle, modelled by the responses it gives to the
calls `index.js` makes.  `showTables` covers the combined
`query("CALL show_tables() RETURN *") / getAll()` round trip used by
`getSchema`, `healthCheck` and startup; `tableInfo` and `showConnection`
likewise for the per-table catalog calls; `runQuery` models execution of an
arbitrary caller-supplied statement with the cursor stages kept separate. -/
structure Conn where
  showTables : Except String (List CatTable)
  tableInfo : String → Except String (List RawProp)
  showConnection : String → Except String (List RawConn)
  runQuery : String → QueryOutcome

/-- `TABLE_TYPES.NODE` from `index.js`. -/
def TABLE_TYPES_NODE : String := "NODE"

/-- `TABLE_TYPES.REL` from `index.js`. -/
def TABLE_TYPES_REL : String := "REL"

/-- Trace of one `executeCypherQuery` call: the returned rows or the thrown
error message, plus whether an engine-side cursor was obtained and whether
`close()` was called on it. -/
structure ExecTrace where
  result : Except String (List Row)
  cursorOpened : Bool
  cursorClosed : Bool
deriving Repr

/-- Embedding of `executeCypherQuery(connection, cypher)` from `index.js`
lines 219–234.  A missing connection throws without the
`Database query failed` wrapping (the check precedes the `try`).  Inside the
`try`, a `query()` rejection or a `getAll()` rejection is caught and rethrown
wrapped; `queryResult.close()` is the statement after `getAll()`, so it runs
only when draining succeeded. -/
def executeCypherQuery (connection : Option Conn) (cypher : String) : ExecTrace :=
  match connection with
  | none => ⟨Except.error "Database connection is not available", false, false⟩
  | some c =>
    let q := c.runQuery cypher
    match q.queryError with
    | some m => ⟨Except.error ("Database query failed: " ++ m), false, false⟩
    | none =>
      match q.drainError with
      | some m => ⟨Except.error ("Database query failed: " ++ m), true, false⟩
      | none => ⟨Except.ok q.rows, true, true⟩

/-- A reflected property descriptor.  `isPrimaryKey = none` models the field
being absent from the JavaScript object (deleted for relationship tables);
`some b` models the field being present with boolean value `b`. -/
structure PropDesc where
  name : String
  type : String
  isPrimaryKey : Option Bool
deriving Repr, DecidableEq

/-- A reflected connectivity pair `{src, dst}`. -/
structure ConnPair where
  src : String
  dst : String
deriving Repr, DecidableEq

/-- A reflected node table `{name, properties}`. -/
structure NodeTable where
  name : String
  properties : List PropDesc
deriving Repr, DecidableEq

/-- A reflected relationship table `{name, properties, connectivity}`. -/
structure RelTable where
  name : String
  properties : List PropDesc
  connectivity : List ConnPair
deriving Repr, DecidableEq

/-- The value returned by `getSchema`: note the field names `nodeTables` and
`relTables`, exactly as the object literal on line 211 of `index.js`. -/
structure Schema where
  nodeTables : List NodeTable
  relTables : List RelTable
deriving Repr, DecidableEq

/-- The property mapping applied to each `TABLE_INFO` row (lines 160–166):
`name`, `type` are copied and `isPrimaryKey` is set from the `primary key`
column. -/
def mkProp (r : RawProp) : PropDesc :=
  ⟨r.name, r.type, some r.primaryKey⟩

/-- The `delete property.isPrimaryKey` mutation applied to every property of a
relationship table (lines 178–180). -/
def stripPrimaryKey (p : PropDesc) : PropDesc :=
  ⟨p.name, p.type, none⟩

/-- The body of the per-table loop of `getSchema` (lines 153–205): fetch
`TABLE_INFO`, build the property list, then branch on the table type.  Any
failure of `TABLE_INFO` or `SHOW_CONNECTION` is caught by the per-table
`try`/`catch`, which only logs, so the table contributes nothing (`none`).
A table whose type is neither `NODE` nor `REL` also contributes nothing. -/
def processTable (c : Conn) (t : CatTable) : Option (Sum NodeTable RelTable) :=
  match c.tableInfo t.name with
  | Except.error _ => none
  | Except.ok raw =>
    let properties := raw.map mkProp
    if t.type = TABLE_TYPES_NODE then
      some (Sum.inl ⟨t.name, properties⟩)
    else if t.type = TABLE_TYPES_REL then
      match c.showConnection t.name with
      | Except.error _ => none
      | Except.ok conns =>
        some (Sum.inr ⟨t.name, properties.map stripPrimaryKey,
          conns.map (fun cn => ⟨cn.src, cn.dst⟩)⟩)
    else none

/-- The `nodeTables` accumulator after the loop: tables processed in catalog
order, keeping those that produced a node table. -/
def nodeTablesOf (c : Conn) (tables : List CatTable) : List NodeTable :=
  tables.filterMap (fun t =>
    match processTable c t with
    | some (Sum.inl n) => some n
    | _ => none)

/-- The `relTables` accumulator after the loop. -/
def relTablesOf (c : Conn) (tables : List CatTable) : List RelTable :=
  tables.filterMap (fun t =>
    match processTable c t with
    | some (Sum.inr r) => some r
    | _ => none)

/-- The sort on line 208: `nodeTables.sort((a, b) => a.name.localeCompare(b.name))`,
modelled as a stable sort by ascending lexicographic table name. -/
def sortNodeTables (l : List NodeTable) : List NodeTable :=
  List.insertionSort (fun a b => a.name ≤ b.name) l

/-- The sort on line 209 for relationship tables. -/
def sortRelTables (l : List RelTable) : List RelTable :=
  List.insertionSort (fun a b => a.name ≤ b.name) l

/-- Reflection of a successfully listed catalog: the loop over the tables
followed by the two sorts and the `{ nodeTables, relTables }` literal. -/
def reflectTables (c : Conn) (tables : List CatTable) : Schema :=
  ⟨sortNodeTables (nodeTablesOf c tables), sortRelTables (relTablesOf c tables)⟩

/-- Embedding of `getSchema(connection)` (lines 140–216).  The outer
`try`/`catch` rethrows a failure of the initial `show_tables` listing, which
therefore propagates; per-table failures were already absorbed inside the
loop. -/
def getSchema (c : Conn) : Except String Schema :=
  match c.showTables with
  | Except.error m => Except.error m
  | Except.ok tables => Except.ok (reflectTables c tables)

/-- Escaping of one character inside a JSON string literal, as performed by
`JSON.stringify` for the characters that can occur here. -/
def jsonEscapeChar (c : Char) : String :=
  if c = '\"' then "\\\""
  else if c = '\\' then "\\\\"
  else if c = '\n' then "\\n"
  else if c = '\t' then "\\t"
  else if c = '\r' then "\\r"
  else String.singleton c

/-- A JSON string literal for `s`. -/
def jsonString (s : String) : String :=
  "\"" ++ String.join (s.data.map jsonEscapeChar) ++ "\""

/-- Rendering of a JSON array by `JSON.stringify(·, _, 2)`: `ind` is the
indentation of the construct containing the array; each element string is
rendered against base indentation `ind ++ "  "`.  An empty array prints as
two brackets with no newline. -/
def stringifyArr (ind : String) (elems : List String) : String :=
  if elems.isEmpty then "[]"
  else
    "[\n" ++ String.intercalate ",\n" (elems.map (fun e => ind ++ "  " ++ e))
      ++ "\n" ++ ind ++ "]"

/-- Rendering of one property descriptor object at base indentation `ind`.
When `isPrimaryKey` is `none` (deleted), `JSON.stringify` omits the key
entirely. -/
def stringifyProp (ind : String) (p : PropDesc) : String :=
  let ind2 := ind ++ "  "
  "\x7b\n" ++ ind2 ++ "\"name\": " ++ jsonString p.name ++ ",\n"
    ++ ind2 ++ "\"type\": " ++ jsonString p.type
    ++ (match p.isPrimaryKey with
        | some b => ",\n" ++ ind2 ++ "\"isPrimaryKey\": " ++ (if b then "true" else "false")
        | none => "")
    ++ "\n" ++ ind ++ "\x7d"

/-- Rendering of one connectivity pair object at base indentation `ind`. -/
def stringifyConnPair (ind : String) (cn : ConnPair) : String :=
  let ind2 := ind ++ "  "
  "\x7b\n" ++ ind2 ++ "\"src\": " ++ jsonString cn.src ++ ",\n"
    ++ ind2 ++ "\"dst\": " ++ jsonString cn.dst
    ++ "\n" ++ ind ++ "\x7d"

/-- Rendering of one node table object at base indentation `ind`. -/
def stringifyNodeTable (ind : String) (t : NodeTable) : String :=
  let ind2 := ind ++ "  "
  "\x7b\n" ++ ind2 ++ "\"name\": " ++ jsonString t.name ++ ",\n"
    ++ ind2 ++ "\"properties\": "
    ++ stringifyArr ind2 (t.properties.map (stringifyProp (ind2 ++ "  ")))
    ++ "\n" ++ ind ++ "\x7d"

/-- Rendering of one relationship table object at base indentation `ind`. -/
def stringifyRelTable (ind : String) (t : RelTable) : String :=
  let ind2 := ind ++ "  "
  "\x7b\n" ++ ind2 ++ "\"name\": " ++ jsonString t.name ++ ",\n"
    ++ ind2 ++ "\"properties\": "
    ++ stringifyArr ind2 (t.properties.map (stringifyProp (ind2 ++ "  ")))
    ++ ",\n" ++ ind2 ++ "\"connectivity\": "
    ++ stringifyArr ind2 (t.connectivity.map (stringifyConnPair (ind2 ++ "  ")))
    ++ "\n" ++ ind ++ "\x7d"

/-- Embedding of `JSON.stringify(schema, null, 2)` as used on line 323 (the
`getSchema` tool response) and line 118 (the prompt template): the two call
sites invoke the very same platform serializer on the very same shape. -/
def stringifySchema (s : Schema) : String :=
  "\x7b\n  \"nodeTables\": "
    ++ stringifyArr "  " (s.nodeTables.map (stringifyNodeTable "    "))
    ++ ",\n  \"relTables\": "
    ++ stringifyArr "  " (s.relTables.map (stringifyRelTable "    "))
    ++ "\n\x7d"

/-- Rendering of one scalar, with `bigIntReplacer` (lines 21–26) already
applied: a bigint value is replaced by its decimal string form. -/
def stringifyVal (v : JsVal) : String :=
  match v with
  | JsVal.str s => jsonString s
  | JsVal.num n => toString n
  | JsVal.bigint n => jsonString (toString n)
  | JsVal.bool b => if b then "true" else "false"
  | JsVal.null => "null"

/-- Rendering of one result row object at base indentation `ind`. -/
def stringifyRow (ind : String) (r : Row) : String :=
  if r.isEmpty then "\x7b\x7d"
  else
    "\x7b\n"
      ++ String.intercalate ",\n"
        (r.map (fun kv => ind ++ "  " ++ jsonString kv.1 ++ ": " ++ stringifyVal kv.2))
      ++ "\n" ++ ind ++ "\x7d"

/-- Embedding of `JSON.stringify(rows, bigIntReplacer, 2)` (line 315). -/
def stringifyRows (rows : List Row) : String :=
  stringifyArr "" (rows.map (stringifyRow "  "))

/-- Process-level configuration read by the handlers: the database path, the
read-only flag, and the current clock reading used for
`new Date().toISOString()` (modelled as an input, since wall-clock time is
external). -/
structure ServerConfig where
  dbPath : String
  readOnly : Bool
  timestamp : String
deriving Repr, DecidableEq

/-- The health status record built by the `healthCheck` branch
(lines 337–344 and 351–358).  `tablesCount` is present exactly on the
healthy path and `error` exactly on the unhealthy path. -/
structure HealthStats where
  status : String
  dbPath : String
  readOnly : Bool
  tablesCount : Option Nat
  error : Option String
  timestamp : String
  version : String
deriving Repr, DecidableEq

/-- The `healthCheck` branch (lines 326–366): probe the catalog listing; on
success build the healthy record and return it with `isError: false`; on a
caught failure build the unhealthy record and return it with
`isError: true`.  The second component is the `isError` flag of the
response. -/
def healthCheckStats (cfg : ServerConfig) (c : Conn) : HealthStats × Bool :=
  match c.showTables with
  | Except.ok tables =>
    (⟨"healthy", cfg.dbPath, cfg.readOnly, some tables.length, none,
      cfg.timestamp, "0.1.0"⟩, false)
  | Except.error e =>
    (⟨"unhealthy", cfg.dbPath, cfg.readOnly, none, some e,
      cfg.timestamp, "0.1.0"⟩, true)

/-- Rendering of `JSON.stringify(stats, null, 2)` for a health record, with
the keys in the insertion order of the corresponding object literal. -/
def stringifyHealth (st : HealthStats) : String :=
  "\x7b\n  \"status\": " ++ jsonString st.status
    ++ ",\n  \"dbPath\": " ++ jsonString st.dbPath
    ++ ",\n  \"readOnly\": " ++ (if st.readOnly then "true" else "false")
    ++ (match st.tablesCount with
        | some n => ",\n  \"tablesCount\": " ++ toString n
        | none => "")
    ++ (match st.error with
        | some e => ",\n  \"error\": " ++ jsonString e
        | none => "")
    ++ ",\n  \"timestamp\": " ++ jsonString st.timestamp
    ++ ",\n  \"version\": " ++ jsonString st.version
    ++ "\n\x7d"

/-- One content item of a tool response. -/
structure Content where
  type : String
  text : String
deriving Repr, DecidableEq

/-- A tool response envelope: `{content, isError}`. -/
structure ToolResponse where
  content : List Content
  isError : Bool
deriving Repr, DecidableEq

/-- The arguments mapping of a tool call; each field is `none` when the key
is absent from the incoming JSON object. -/
structure ToolArgs where
  cypher : Option String
  question : Option String
  execute : Option Bool
deriving Repr, DecidableEq

/-- `request.params` of a tool call. -/
structure CallParams where
  name : String
  arguments : Option ToolArgs
deriving Repr, DecidableEq

/-- A tool-call request envelope. -/
structure CallRequest where
  params : Option CallParams
deriving Repr, DecidableEq

/-- Embedding of the JavaScript `String.prototype.trim()` call: strip
whitespace characters from both ends. -/
def jsTrim (s : String) : String :=
  String.mk (((s.data.dropWhile Char.isWhitespace).reverse.dropWhile
    Char.isWhitespace).reverse)

/-- Whether the character sequence `p ++ _` starts the second list. -/
def leadsWith : List Char → List Char → Bool
  | [], _ => true
  | _ :: _, [] => false
  | p :: ps, c :: cs => p = c && leadsWith ps cs

/-- Whether `pat` occurs as a contiguous substring of the second list; used
to state what a response payload does or does not carry. -/
def occursIn (pat : List Char) : List Char → Bool
  | [] => pat.isEmpty
  | c :: cs => leadsWith pat (c :: cs) || occursIn pat cs

/-- The fixed stub text returned by the `generateKuzuCypher` tool branch
(lines 371–379). -/
def generateCypherStubText : String :=
  "Please use the generateKuzuCypher prompt instead of this tool, as it requires LLM access to generate Cypher from natural language."

/-- The body of the `CallToolRequestSchema` handler (lines 296–381), i.e.
everything inside the `try`.  `Except.error` models a thrown exception.  The
JavaScript truthiness tests `!request.params.name`, `!arguments.cypher`
treat a missing value and the empty string alike, which the nested matches
reproduce. -/
def callToolBody (cfg : ServerConfig) (conn : Conn) (req : CallRequest) :
    Except String ToolResponse :=
  match req.params with
  | none => Except.error "Invalid request: missing tool name"
  | some p =>
    if p.name = "" then Except.error "Invalid request: missing tool name"
    else if p.name = "graphQuery" then
      match p.arguments with
      | none => Except.error "Missing required parameter: cypher"
      | some a =>
        match a.cypher with
        | none => Except.error "Missing required parameter: cypher"
        | some c0 =>
          if c0 = "" then Except.error "Missing required parameter: cypher"
          else
            let cypher := jsTrim c0
            if cypher = "" then Except.error "Cypher query cannot be empty"
            else
              match (executeCypherQuery (some conn) cypher).result with
              | Except.error m => Except.error m
              | Except.ok rows =>
                Except.ok ⟨[⟨"text", stringifyRows rows⟩], false⟩
    else if p.name = "getSchema" then
      match getSchema conn with
      | Except.error m => Except.error m
      | Except.ok s => Except.ok ⟨[⟨"text", stringifySchema s⟩], false⟩
    else if p.name = "healthCheck" then
      let stats := healthCheckStats cfg conn
      Except.ok ⟨[⟨"text", stringifyHealth stats.1⟩], stats.2⟩
    else if p.name = "generateKuzuCypher" then
      Except.ok ⟨[⟨"text", generateCypherStubText⟩], false⟩
    else Except.error ("Unknown tool: " ++ p.name)

/-- The registered `CallToolRequestSchema` handler: the `try`/`catch` of
lines 296–389.  The `catch` (lines 382–388) converts every exception thrown
by the body into a returned response with the message and `isError: true`,
so the handler promise itself never rejects; an `Except.error` here would
model a transport-level protocol error. -/
def callToolHandler (cfg : ServerConfig) (conn : Conn) (req : CallRequest) :
    Except String ToolResponse :=
  match callToolBody cfg conn req with
  | Except.ok r => Except.ok r
  | Except.error m => Except.ok ⟨[⟨"text", "Error: " ++ m⟩], true⟩

/-- The fixed instructional text of the prompt template (lines 95–117) up to
and including the `Schema:` line, i.e. everything before the interpolated
`JSON.stringify(schema, null, 2)`.  Apostrophes are written with the escape u0027 and braces would be
written with x7b and x7d escapes; the text is otherwise verbatim. -/
def promptHead : String :=
  "Task: Generate Kuzu Cypher statement to query a graph database.\n"
    ++ "Instructions:\n"
    ++ "Generate the Kuzu dialect of Cypher with the following rules in mind:\n"
    ++ "1. It is recommended to always specify node and relationship labels explicitly in the `CREATE` and `MERGE` clause. If not specified, Kuzu will try to infer the label by looking at the schema.\n"
    ++ "2. `FINISH` is recently introduced in GQL and adopted by Neo4j but not yet supported in Kuzu. You can use `RETURN COUNT(*)` instead which will only return one record.\n"
    ++ "3. `FOREACH` is not supported. You can use `UNWIND` instead.\n"
    ++ "4. Kuzu can scan files not only in the format of CSV, so the `LOAD CSV FROM` clause is renamed to `LOAD FROM`.\n"
    ++ "5. Relationship cannot be omitted. For example `--`, `-- > ` and `< --` are not supported. You need to use ` - [] - `, ` - [] -> ` and ` < -[] -` instead.\n"
    ++ "6. Neo4j adopts trail semantic (no repeated edge) for pattern within a `MATCH` clause. While Kuzu adopts walk semantic (allow repeated edge) for pattern within a `MATCH` clause. You can use `is_trail` or `is_acyclic` function to check if a path is a trail or acyclic.\n"
    ++ "7. Since Kuzu adopts trail semantic by default, so a variable length relationship needs to have a upper bound to guarantee the query will terminate. If upper bound is not specified, Kuzu will assign a default value of 30.\n"
    ++ "8. To run algorithms like (all) shortest path, simply add `SHORTEST` or `ALL SHORTEST` between the kleene star and lower bound. For example,  `MATCH(n) - [r * SHORTEST 1..10] -> (m)`. It is recommended to use `SHORTEST` if paths are not needed in the use case.\n"
    ++ "9. `REMOVE` is not supported. Use `SET n.prop = NULL` instead.\n"
    ++ "10. Properties must be updated in the form of `n.prop = expression`. Update all properties with map of ` +=` operator is not supported. Try to update properties one by one.\n"
    ++ "11. `USE` graph is not supported. For Kuzu, each graph is a database.\n"
    ++ "12. Using `WHERE` inside node or relationship pattern is not supported, e.g. `MATCH(n: Person WHERE a.name = \u0027Andy\u0027) RETURN n`. You need to write it as `MATCH(n: Person) WHERE n.name = \u0027Andy\u0027 RETURN n`.\n"
    ++ "13. Filter on node or relationship labels is not supported, e.g. `MATCH (n) WHERE n:Person RETURN n`. You need to write it as `MATCH(n: Person) RETURN n`, or `MATCH(n) WHERE label(n) = \u0027Person\u0027 RETURN n`.\n"
    ++ "14. Any `SHOW XXX` clauses become a function call in Kuzu. For example, `SHOW FUNCTIONS` in Neo4j is equivalent to `CALL show_functions() RETURN *` in Kuzu.\n"
    ++ "15. Kuzu supports `EXISTS` and `COUNT` subquery.\n"
    ++ "16. `CALL <subquery>` is not supported.\n"
    ++ "\n"
    ++ "Use only the provided node types, relationship types and properties in the schema.\n"
    ++ "Do not use any other node types, relationship types or properties that are not provided explicitly in the schema.\n"
    ++ "Schema:\n"

/-- The fixed text of the prompt template between the interpolated schema
and the interpolated question (lines 119–124). -/
def promptMid : String :=
  "\nNote: Do not include any explanations or apologies in your responses.\n"
    ++ "Do not respond to any questions that might ask anything else than for you to construct a Cypher statement.\n"
    ++ "Do not include any text except the generated Cypher statement.\n"
    ++ "\n"
    ++ "The question is:\n"

/-- Embedding of `getPrompt(question, schema)` (lines 94–127): the template
literal with the serialized schema and the question substituted in, followed
by the final newline before the closing backtick. -/
def getPrompt (question : String) (schema : Schema) : String :=
  promptHead ++ stringifySchema schema ++ promptMid ++ question ++ "\n"

/-- The arguments mapping of a prompt request; only `question` is read. -/
structure PromptArgs where
  question : Option String
deriving Repr, DecidableEq

/-- `request.params` of a prompt request. -/
structure PromptParams where
  name : String
  arguments : Option PromptArgs
deriving Repr, DecidableEq

/-- A prompt request envelope. -/
structure PromptRequest where
  params : Option PromptParams
deriving Repr, DecidableEq

/-- One conversational message of a prompt response. -/
structure PromptMessage where
  role : String
  content : Content
deriving Repr, DecidableEq

/-- A prompt response envelope: `{messages}`. -/
structure PromptResponse where
  messages : List PromptMessage
deriving Repr, DecidableEq

/-- The registered `GetPromptRequestSchema` handler (lines 411–443).  Unlike
the tool-call handler, its `catch` logs and rethrows (`throw error`,
line 441), so every thrown failure — missing or empty question, unknown
prompt name, and a schema-reflection failure — propagates out of the handler
as an `Except.error`, i.e. a transport-level protocol error. -/
def getPromptHandler (conn : Conn) (req : PromptRequest) :
    Except String PromptResponse :=
  match req.params with
  | none => Except.error "Invalid request: missing prompt name"
  | some p =>
    if p.name = "" then Except.error "Invalid request: missing prompt name"
    else if p.name = "generateKuzuCypher" then
      match p.arguments with
      | none => Except.error "Missing required parameter: question"
      | some a =>
        match a.question with
        | none => Except.error "Missing required parameter: question"
        | some q0 =>
          if q0 = "" then Except.error "Missing required parameter: question"
          else
            let question := jsTrim q0
            if question = "" then Except.error "Question cannot be empty"
            else
              match getSchema conn with
              | Except.error m => Except.error m
              | Except.ok s =>
                Except.ok ⟨[⟨"user", ⟨"text", getPrompt question s⟩⟩]⟩
    else Except.error ("Unknown prompt: " ++ p.name)

/-- A fixed server configuration used for concrete evaluations. -/
def cfg0 : ServerConfig :=
  ⟨"/tmp/kuzu", false, "2026-10-11T00:00:00.000Z"⟩

/-- An arguments mapping with every key absent. -/
def noArgs : ToolArgs := ⟨none, none, none⟩

/-- A connection to an empty database: the catalog lists no tables and every
statement succeeds with no rows. -/
def emptyConn : Conn :=
  ⟨Except.ok [], fun _ => Except.ok [], fun _ => Except.ok [],
    fun _ => ⟨none, [], none⟩⟩

/-- A connection whose engine fails every call: the catalog probe and every
statement are rejected. -/
def downConn : Conn :=
  ⟨Except.error "Connection is closed", fun _ => Except.error "Connection is closed",
    fun _ => Except.error "Connection is closed",
    fun _ => ⟨some "Connection is closed", [], none⟩⟩

/-- A connection whose engine rejects every caller-supplied statement at
`query()` time with a parser message, while catalog calls succeed. -/
def rejectConn : Conn :=
  ⟨Except.ok [], fun _ => Except.ok [], fun _ => Except.ok [],
    fun _ => ⟨some "Parser exception: Invalid input", [], none⟩⟩

/-- A connection whose engine accepts every statement but fails while the
rows are being drained from the cursor. -/
def drainFailConn : Conn :=
  ⟨Except.ok [], fun _ => Except.ok [], fun _ => Except.ok [],
    fun _ => ⟨none, [], some "Iterator invalidated"⟩⟩

/-- Table metadata of a small sample database: a `Person` node table with an
`id` primary key and a `KNOWS` relationship table. -/
def sampleInfo (n : String) : Except String (List RawProp) :=
  if n = "Person" then Except.ok [⟨"id", "INT64", true⟩, ⟨"name", "STRING", false⟩]
  else if n = "KNOWS" then Except.ok [⟨"since", "INT64", false⟩]
  else Except.error "Table does not exist"

/-- Connectivity metadata of the sample database. -/
def sampleConnectivity (n : String) : Except String (List RawConn) :=
  if n = "KNOWS" then Except.ok [⟨"Person", "Person"⟩] else Except.ok []

/-- A sample connection whose catalog lists `tables`, with the sample
metadata. -/
def sampleConn (tables : List CatTable) : Conn :=
  ⟨Except.ok tables, sampleInfo, sampleConnectivity, fun _ => ⟨none, [], none⟩⟩

/-- The sample catalog in one order. -/
def connA : Conn := sampleConn [⟨"Person", "NODE"⟩, ⟨"KNOWS", "REL"⟩]

/-- The sample catalog in the opposite order. -/
def connB : Conn := sampleConn [⟨"KNOWS", "REL"⟩, ⟨"Person", "NODE"⟩]

/-- A connection where the metadata of one table (`Broken`) cannot be
fetched while the other tables reflect fine. -/
def brokenTableConn : Conn :=
  ⟨Except.ok [⟨"Person", "NODE"⟩, ⟨"Broken", "NODE"⟩, ⟨"KNOWS", "REL"⟩],
    fun n => if n = "Broken" then Except.error "Catalog exception" else sampleInfo n,
    sampleConnectivity, fun _ => ⟨none, [], none⟩⟩

/-- The reflected schema of the sample database. -/
def sampleSchema : Schema :=
  ⟨[⟨"Person", [⟨"id", "INT64", some true⟩, ⟨"name", "STRING", some false⟩]⟩],
    [⟨"KNOWS", [⟨"since", "INT64", none⟩], [⟨"Person", "Person"⟩]⟩]⟩

instance : IsTotal NodeTable (fun a b => a.name ≤ b.name) :=
  ⟨fun a b => le_total a.name b.name⟩

instance : IsTrans NodeTable (fun a b => a.name ≤ b.name) :=
  ⟨fun _ _ _ h₁ h₂ => le_trans h₁ h₂⟩

instance : IsTotal RelTable (fun a b => a.name ≤ b.name) :=
  ⟨fun a b => le_total a.name b.name⟩

instance : IsTrans RelTable (fun a b => a.name ≤ b.name) :=
  ⟨fun _ _ _ h₁ h₂ => le_trans h₁ h₂⟩

theorem processTable_congr {c c₂ : Conn} (h₁ : c₂.tableInfo = c.tableInfo)
    (h₂ : c₂.showConnection = c.showConnection) :
    processTable c₂ = processTable c := by
  funext t
  simp only [processTable, h₁, h₂]

theorem processTable_inl {c : Conn} {t : CatTable} {n : NodeTable}
    (h : processTable c t = some (Sum.inl n)) :
    ∃ raw, c.tableInfo t.name = Except.ok raw ∧ t.type = TABLE_TYPES_NODE ∧
      n = ⟨t.name, raw.map mkProp⟩ := by
  unfold processTable at h
  cases hi : c.tableInfo t.name with
  | error e => simp [hi] at h
  | ok raw =>
    simp only [hi] at h
    by_cases hn : t.type = TABLE_TYPES_NODE
    · rw [if_pos hn] at h
      exact ⟨raw, rfl, hn, by injection h with h; injection h with h; exact h.symm⟩
    · rw [if_neg hn] at h
      by_cases hr : t.type = TABLE_TYPES_REL
      · rw [if_pos hr] at h
        cases hc : c.showConnection t.name with
        | error e => simp [hc] at h
        | ok conns => simp [hc] at h
      · rw [if_neg hr] at h; exact absurd h (by simp)

theorem processTable_inr {c : Conn} {t : CatTable} {r : RelTable}
    (h : processTable c t = some (Sum.inr r)) :
    ∃ raw conns, c.tableInfo t.name = Except.ok raw ∧ t.type = TABLE_TYPES_REL ∧
      c.showConnection t.name = Except.ok conns ∧
      r = ⟨t.name, (raw.map mkProp).map stripPrimaryKey,
        conns.map (fun cn => ⟨cn.src, cn.dst⟩)⟩ := by
  unfold processTable at h
  cases hi : c.tableInfo t.name with
  | error e => simp [hi] at h
  | ok raw =>
    simp only [hi] at h
    by_cases hn : t.type = TABLE_TYPES_NODE
    · rw [if_pos hn] at h; exact absurd h (by simp)
    · rw [if_neg hn] at h
      by_cases hr : t.type = TABLE_TYPES_REL
      · rw [if_pos hr] at h
        cases hc : c.showConnection t.name with
        | error e => simp [hc] at h
        | ok conns =>
          simp only [hc] at h
          refine ⟨raw, conns, rfl, hr, rfl, ?_⟩
          injection h with h; injection h with h; exact h.symm
      · rw [if_neg hr] at h; exact absurd h (by simp)

theorem nodeTablesOf_names_sublist (c : Conn) (tables : List CatTable) :
    List.Sublist ((nodeTablesOf c tables).map NodeTable.name)
      (tables.map CatTable.name) := by
  induction tables with
  | nil => simp [nodeTablesOf]
  | cons t ts ih =>
    simp only [nodeTablesOf, List.filterMap_cons, List.map_cons] at ih ⊢
    cases h : processTable c t with
    | none => simpa only [h] using ih.cons _
    | some v =>
      cases v with
      | inl n =>
        obtain ⟨raw, _, _, hn⟩ := processTable_inl h
        simpa only [h, List.map_cons, hn] using ih.cons₂ _
      | inr r => simpa only [h] using ih.cons _

theorem relTablesOf_names_sublist (c : Conn) (tables : List CatTable) :
    List.Sublist ((relTablesOf c tables).map RelTable.name)
      (tables.map CatTable.name) := by
  induction tables with
  | nil => simp [relTablesOf]
  | cons t ts ih =>
    simp only [relTablesOf, List.filterMap_cons, List.map_cons] at ih ⊢
    cases h : processTable c t with
    | none => simpa only [h] using ih.cons _
    | some v =>
      cases v with
      | inl n => simpa only [h] using ih.cons _
      | inr r =>
        obtain ⟨raw, conns, _, _, _, hr⟩ := processTable_inr h
        simpa only [h, List.map_cons, hr] using ih.cons₂ _

theorem sorted_key_eq {α : Type} (key : α → String) {l₁ l₂ : List α}
    (hp : List.Perm l₁ l₂)
    (hs₁ : List.Sorted (fun a b => key a ≤ key b) l₁)
    (hs₂ : List.Sorted (fun a b => key a ≤ key b) l₂)
    (hn : (l₁.map key).Nodup) : l₁ = l₂ := by
  haveI : IsAntisymm α (fun a b => key a < key b) :=
    ⟨fun a b h₁ h₂ => absurd (lt_trans h₁ h₂) (lt_irrefl _)⟩
  have hn₂ : (l₂.map key).Nodup := ((hp.map key).nodup_iff).mp hn
  have hne₁ : l₁.Pairwise (fun a b => key a ≠ key b) := List.pairwise_map.mp hn
  have hne₂ : l₂.Pairwise (fun a b => key a ≠ key b) := List.pairwise_map.mp hn₂
  have hlt₁ : List.Sorted (fun a b => key a < key b) l₁ :=
    (hs₁.and hne₁).imp (fun h => lt_of_le_of_ne h.1 h.2)
  have hlt₂ : List.Sorted (fun a b => key a < key b) l₂ :=
    (hs₂.and hne₂).imp (fun h => lt_of_le_of_ne h.1 h.2)
  exact List.eq_of_perm_of_sorted hp hlt₁ hlt₂

theorem reflectTables_perm_eq {c c₂ : Conn} {t t₂ : List CatTable}
    (hi : c₂.tableInfo = c.tableInfo) (hc : c₂.showConnection = c.showConnection)
    (hp : List.Perm t t₂) (hn : (t.map CatTable.name).Nodup) :
    reflectTables c t = reflectTables c₂ t₂ := by
  have hpt : processTable c₂ = processTable c := processTable_congr hi hc
  have hnode : List.Perm (nodeTablesOf c t) (nodeTablesOf c₂ t₂) := by
    unfold nodeTablesOf
    rw [hpt]
    exact hp.filterMap _
  have hrel : List.Perm (relTablesOf c t) (relTablesOf c₂ t₂) := by
    unfold relTablesOf
    rw [hpt]
    exact hp.filterMap _
  have hnNode : ((nodeTablesOf c t).map NodeTable.name).Nodup :=
    List.Nodup.sublist (nodeTablesOf_names_sublist c t) hn
  have hnRel : ((relTablesOf c t).map RelTable.name).Nodup :=
    List.Nodup.sublist (relTablesOf_names_sublist c t) hn
  have heqN : sortNodeTables (nodeTablesOf c t) = sortNodeTables (nodeTablesOf c₂ t₂) := by
    refine sorted_key_eq NodeTable.name ?_ ?_ ?_ ?_
    · exact ((List.perm_insertionSort _ _).trans hnode).trans
        (List.perm_insertionSort _ _).symm
    · exact List.sorted_insertionSort _ _
    · exact List.sorted_insertionSort _ _
    · exact (((List.perm_insertionSort _ _).map NodeTable.name).nodup_iff).mpr hnNode
  have heqR : sortRelTables (relTablesOf c t) = sortRelTables (relTablesOf c₂ t₂) := by
    refine sorted_key_eq RelTable.name ?_ ?_ ?_ ?_
    · exact ((List.perm_insertionSort _ _).trans hrel).trans
        (List.perm_insertionSort _ _).symm
    · exact List.sorted_insertionSort _ _
    · exact List.sorted_insertionSort _ _
    · exact (((List.perm_insertionSort _ _).map RelTable.name).nodup_iff).mpr hnRel
  unfold reflectTables
  rw [heqN, heqR]

/-- C1, counterexample: invoking the unknown operation name `doesNotExist`
does NOT surface a transport-level error.  The `throw` on line 381 sits
inside the handler's own `try`, so the `catch` on lines 382–388 converts it
into an ordinary returned response with `isError: true`; the handler result
is `Except.ok`, refuting the claim that the failure is thrown past the
handler rather than returned as an isError-flagged response. -/
theorem c1_counterexample :
    callToolHandler cfg0 downConn ⟨some ⟨"doesNotExist", some noArgs⟩⟩ =
      Except.ok ⟨[⟨"text", "Error: Unknown tool: doesNotExist"⟩], true⟩ := by
  rfl

/-- C1, amended: for every non-empty operation name outside the static
catalog, the dispatcher returns an operation-level failure — a normal
response with `isError: true` whose text references the unknown name — and
never a transport-level error. -/
theorem c1_unknown_tool (cfg : ServerConfig) (conn : Conn) (name : String)
    (args : Option ToolArgs) (h0 : name ≠ "")
    (h1 : name ≠ "graphQuery") (h2 : name ≠ "getSchema")
    (h3 : name ≠ "healthCheck") (h4 : name ≠ "generateKuzuCypher") :
    callToolHandler cfg conn ⟨some ⟨name, args⟩⟩ =
      Except.ok ⟨[⟨"text", "Error: Unknown tool: " ++ name⟩], true⟩ := by
  unfold callToolHandler callToolBody
  simp [h0, h1, h2, h3, h4]
  rw [← String.append_assoc]
  rfl

/-- C1, witness for the amended theorem at a concrete unknown name. -/
theorem c1_unknown_tool_witness :
    callToolHandler cfg0 downConn ⟨some ⟨"noSuchTool", some noArgs⟩⟩ =
      Except.ok ⟨[⟨"text", "Error: Unknown tool: noSuchTool"⟩], true⟩ :=
  c1_unknown_tool cfg0 downConn "noSuchTool" (some noArgs)
    (by decide) (by decide) (by decide) (by decide) (by decide)

/-- C2, counterexample: against a failing engine, `healthCheck` returns an
operation-level failure — the unhealthy branch (lines 360–365) sets
`isError: true` — refuting the claim that both outcomes are returned as
success-shaped values. -/
theorem c2_counterexample :
    callToolHandler cfg0 downConn ⟨some ⟨"healthCheck", none⟩⟩ =
      Except.ok ⟨[⟨"text", stringifyHealth ⟨"unhealthy", "/tmp/kuzu", false, none,
        some "Connection is closed", "2026-10-11T00:00:00.000Z", "0.1.0"⟩⟩], true⟩ := by
  rfl

/-- C2, amended: for every engine state, `healthCheck` never raises a
transport-level error (the handler result is always `Except.ok`); the
status record has `status` exactly `healthy` or exactly `unhealthy`, with an
error message exactly when unhealthy; but the unhealthy outcome is flagged
`isError: true`, i.e. it IS an operation-level failure. -/
theorem c2_health_check (cfg : ServerConfig) (conn : Conn) (args : Option ToolArgs) :
    callToolHandler cfg conn ⟨some ⟨"healthCheck", args⟩⟩ =
      Except.ok ⟨[⟨"text", stringifyHealth (healthCheckStats cfg conn).1⟩],
        (healthCheckStats cfg conn).2⟩ ∧
    (((healthCheckStats cfg conn).1.status = "healthy" ∧
        (healthCheckStats cfg conn).2 = false ∧
        (healthCheckStats cfg conn).1.error = none) ∨
      ((healthCheckStats cfg conn).1.status = "unhealthy" ∧
        (healthCheckStats cfg conn).2 = true ∧
        (healthCheckStats cfg conn).1.error ≠ none)) := by
  constructor
  · rfl
  · cases h : conn.showTables with
    | error m => right; simp [healthCheckStats, h]
    | ok tables => left; simp [healthCheckStats, h]

/-- C3, counterexample: the engine rejects the statement `BADQ`, and the
resulting operation-level failure payload wraps the engine message — but the
offending statement itself does not occur anywhere in the payload (it is
only written to the diagnostic log by `console.error` on line 231),
refuting the part of the claim that the wrapped payload carries the
offending statement. -/
theorem c3_counterexample :
    callToolHandler cfg0 rejectConn
        ⟨some ⟨"graphQuery", some ⟨some "BADQ", none, none⟩⟩⟩ =
      Except.ok ⟨[⟨"text",
        "Error: Database query failed: Parser exception: Invalid input"⟩], true⟩ ∧
    occursIn "BADQ".data
      "Error: Database query failed: Parser exception: Invalid input".data = false :=
  ⟨by rfl, by decide⟩

/-- C3, amended: for every statement rejected by the engine — at `query()`
time or while draining rows — the `graphQuery` operation returns an
operation-level failure (`isError: true`, never a transport-level error)
whose payload carries the engine's original message wrapped as
`Database query failed: <message>`; the offending statement is only logged,
not included in the payload. -/
theorem c3_engine_error (cfg : ServerConfig) (conn : Conn) (a : ToolArgs)
    (c0 m : String) (hc : a.cypher = some c0) (h0 : c0 ≠ "")
    (ht : jsTrim c0 ≠ "")
    (hq : (conn.runQuery (jsTrim c0)).queryError = some m ∨
      ((conn.runQuery (jsTrim c0)).queryError = none ∧
        (conn.runQuery (jsTrim c0)).drainError = some m)) :
    callToolHandler cfg conn ⟨some ⟨"graphQuery", some a⟩⟩ =
      Except.ok ⟨[⟨"text", "Error: Database query failed: " ++ m⟩], true⟩ := by
  unfold callToolHandler callToolBody
  simp only [hc]
  rw [if_neg h0, if_neg ht]
  unfold executeCypherQuery
  rcases hq with h | ⟨h1, h2⟩
  · simp [h]
    rw [← String.append_assoc]
    rfl
  · simp [h1, h2]
    rw [← String.append_assoc]
    rfl

/-- C3, witness for the amended theorem at a concrete rejected statement. -/
theorem c3_engine_error_witness :
    callToolHandler cfg0 rejectConn
        ⟨some ⟨"graphQuery", some ⟨some "RETURN 1", none, none⟩⟩⟩ =
      Except.ok ⟨[⟨"text",
        "Error: Database query failed: Parser exception: Invalid input"⟩], true⟩ :=
  c3_engine_error cfg0 rejectConn ⟨some "RETURN 1", none, none⟩ "RETURN 1"
    "Parser exception: Invalid input" rfl (by decide) (by decide) (Or.inl rfl)

/-- C4, counterexample: when draining the rows fails, the cursor obtained
from `query()` is never released — `queryResult.close()` on line 227 is
sequenced after `getAll()` with no `finally`, so the rejection of `getAll()`
skips it — refuting the claimed guaranteed release on every path. -/
theorem c4_counterexample :
    (executeCypherQuery (some drainFailConn) "MATCH (n) RETURN n").cursorOpened = true ∧
    (executeCypherQuery (some drainFailConn) "MATCH (n) RETURN n").cursorClosed = false :=
  ⟨rfl, rfl⟩

/-- C4, amended: the cursor is released on the success path (statement
accepted and rows drained), but on a row-drain failure the cursor is
obtained and the release is skipped. -/
theorem c4_cursor_release (conn : Conn) (cypher : String) :
    (((conn.runQuery cypher).queryError = none ∧
        (conn.runQuery cypher).drainError = none) →
      (executeCypherQuery (some conn) cypher).cursorOpened = true ∧
      (executeCypherQuery (some conn) cypher).cursorClosed = true) ∧
    (∀ m, (conn.runQuery cypher).queryError = none →
      (conn.runQuery cypher).drainError = some m →
      (executeCypherQuery (some conn) cypher).cursorOpened = true ∧
      (executeCypherQuery (some conn) cypher).cursorClosed = false) := by
  constructor
  · rintro ⟨h1, h2⟩
    simp [executeCypherQuery, h1, h2]
  · intro m h1 h2
    simp [executeCypherQuery, h1, h2]

/-- C4, witness for the amended theorem: the success path on a healthy
connection closes the cursor, the drain-failure path leaves it open. -/
theorem c4_cursor_release_witness :
    ((executeCypherQuery (some emptyConn) "RETURN 1").cursorOpened = true ∧
      (executeCypherQuery (some emptyConn) "RETURN 1").cursorClosed = true) ∧
    ((executeCypherQuery (some drainFailConn) "RETURN 1").cursorOpened = true ∧
      (executeCypherQuery (some drainFailConn) "RETURN 1").cursorClosed = false) :=
  ⟨(c4_cursor_release emptyConn "RETURN 1").1 ⟨rfl, rfl⟩,
    (c4_cursor_release drainFailConn "RETURN 1").2 "Iterator invalidated" rfl rfl⟩

/-- C5, counterexample: against the empty database the `getSchema` operation
returns a record whose fields are named `nodeTables` and `relTables`
(line 211 of `index.js`), not `entityTables` and `relationshipTables`: the
serialized payload of the call differs from the serialization the claim
demands. -/
theorem c5_counterexample :
    callToolHandler cfg0 emptyConn ⟨some ⟨"getSchema", none⟩⟩ =
      Except.ok ⟨[⟨"text",
        "\x7b\n  \"nodeTables\": [],\n  \"relTables\": []\n\x7d"⟩], false⟩ ∧
    "\x7b\n  \"nodeTables\": [],\n  \"relTables\": []\n\x7d" ≠
      "\x7b\n  \"entityTables\": [],\n  \"relationshipTables\": []\n\x7d" :=
  ⟨by rfl, by decide⟩

/-- C5, amended: schema reflection returns a record whose two fields are
named `nodeTables` and `relTables`; against an empty database the
`getSchema` operation returns exactly the empty record, serialized with
those two field names. -/
theorem c5_schema_shape (cfg : ServerConfig) (conn : Conn) (args : Option ToolArgs)
    (h : conn.showTables = Except.ok []) :
    getSchema conn = Except.ok ⟨[], []⟩ ∧
    callToolHandler cfg conn ⟨some ⟨"getSchema", args⟩⟩ =
      Except.ok ⟨[⟨"text",
        "\x7b\n  \"nodeTables\": [],\n  \"relTables\": []\n\x7d"⟩], false⟩ := by
  have hg : getSchema conn = Except.ok ⟨[], []⟩ := by
    simp [getSchema, h, reflectTables, nodeTablesOf, relTablesOf,
      sortNodeTables, sortRelTables]
  refine ⟨hg, ?_⟩
  unfold callToolHandler callToolBody
  simp only [hg]
  rfl

/-- C5, witness for the amended theorem at the concrete empty connection. -/
theorem c5_schema_shape_witness :
    getSchema emptyConn = Except.ok ⟨[], []⟩ ∧
    callToolHandler cfg0 emptyConn ⟨some ⟨"getSchema", some noArgs⟩⟩ =
      Except.ok ⟨[⟨"text",
        "\x7b\n  \"nodeTables\": [],\n  \"relTables\": []\n\x7d"⟩], false⟩ :=
  c5_schema_shape cfg0 emptyConn (some noArgs) rfl

/-- C6: in any successfully reflected schema, every relationship-table
property has the primary-key field absent, and every node table carries the
property list of the engine catalog mapped through `mkProp`, which sets
`isPrimaryKey` to exactly the catalog's `primary key` mark — so the flag
holds exactly on the property the catalog marks primary. -/
theorem c6_primary_key_flags (c : Conn) (s : Schema)
    (h : getSchema c = Except.ok s) :
    (∀ rt ∈ s.relTables, ∀ p ∈ rt.properties, p.isPrimaryKey = none) ∧
    (∀ nt ∈ s.nodeTables, ∃ raw, c.tableInfo nt.name = Except.ok raw ∧
      nt.properties = raw.map mkProp) := by
  obtain ⟨tables, hst, hs⟩ :
      ∃ tables, c.showTables = Except.ok tables ∧ s = reflectTables c tables := by
    unfold getSchema at h
    cases hst : c.showTables with
    | error m => rw [hst] at h; cases h
    | ok tables =>
      rw [hst] at h
      exact ⟨tables, rfl, by injection h with h; exact h.symm⟩
  subst hs
  constructor
  · intro rt hrt p hp
    have hmem : rt ∈ relTablesOf c tables :=
      (List.perm_insertionSort (fun a b : RelTable => a.name ≤ b.name)
        (relTablesOf c tables)).mem_iff.mp hrt
    obtain ⟨t, ht, hmap⟩ := List.mem_filterMap.mp hmem
    cases hpt : processTable c t with
    | none => simp [hpt] at hmap
    | some v =>
      cases v with
      | inl n => simp [hpt] at hmap
      | inr r =>
        simp only [hpt] at hmap
        have hrr : r = rt := by injection hmap
        obtain ⟨raw, conns, hinfo, htype, hconn, hrdef⟩ := processTable_inr hpt
        rw [← hrr, hrdef] at hp
        simp only [List.map_map, List.mem_map] at hp
        obtain ⟨q, hq, hpq⟩ := hp
        rw [← hpq]
        rfl
  · intro nt hnt
    have hmem : nt ∈ nodeTablesOf c tables :=
      (List.perm_insertionSort (fun a b : NodeTable => a.name ≤ b.name)
        (nodeTablesOf c tables)).mem_iff.mp hnt
    obtain ⟨t, ht, hmap⟩ := List.mem_filterMap.mp hmem
    cases hpt : processTable c t with
    | none => simp [hpt] at hmap
    | some v =>
      cases v with
      | inr r => simp [hpt] at hmap
      | inl n =>
        simp only [hpt] at hmap
        have hnn : n = nt := by injection hmap
        obtain ⟨raw, hinfo, htype, hndef⟩ := processTable_inl hpt
        refine ⟨raw, ?_, ?_⟩
        · rw [← hnn, hndef]
          exact hinfo
        · rw [← hnn, hndef]

/-- C6, witness at the concrete sample database. -/
theorem c6_primary_key_flags_witness :
    getSchema connA = Except.ok sampleSchema ∧
    ((∀ rt ∈ sampleSchema.relTables, ∀ p ∈ rt.properties, p.isPrimaryKey = none) ∧
      (∀ nt ∈ sampleSchema.nodeTables, ∃ raw,
        connA.tableInfo nt.name = Except.ok raw ∧
        nt.properties = raw.map mkProp)) :=
  ⟨rfl, c6_primary_key_flags connA sampleSchema rfl⟩

/-- C7: the reflected schema is sorted by table name, ascending, in both
lists; and for any permutation of the underlying catalog order (presented by
a second connection giving the same per-table metadata), as long as table
names are unique, reflection yields the identical output. -/
theorem c7_reflection_sorted_deterministic (c : Conn) (s : Schema)
    (h : getSchema c = Except.ok s) :
    (List.Sorted (fun a b : NodeTable => a.name ≤ b.name) s.nodeTables ∧
      List.Sorted (fun a b : RelTable => a.name ≤ b.name) s.relTables) ∧
    (∀ c₂ tables tables₂, c.showTables = Except.ok tables →
      c₂.showTables = Except.ok tables₂ → c₂.tableInfo = c.tableInfo →
      c₂.showConnection = c.showConnection → List.Perm tables tables₂ →
      (tables.map CatTable.name).Nodup → getSchema c₂ = Except.ok s) := by
  obtain ⟨tables0, hst0, hs⟩ :
      ∃ tables, c.showTables = Except.ok tables ∧ s = reflectTables c tables := by
    unfold getSchema at h
    cases hst : c.showTables with
    | error m => rw [hst] at h; cases h
    | ok tables =>
      rw [hst] at h
      exact ⟨tables, rfl, by injection h with h; exact h.symm⟩
  subst hs
  constructor
  · exact ⟨List.sorted_insertionSort _ _, List.sorted_insertionSort _ _⟩
  · intro c₂ tables tables₂ hst hst₂ hti hsc hp hn
    have htt : tables0 = tables := by
      rw [hst] at hst0
      injection hst0 with h
      exact h.symm
    subst htt
    unfold getSchema
    rw [hst₂, reflectTables_perm_eq hti hsc hp hn]

/-- C7, witness: the sample catalog in both orders reflects to the same
sorted schema. -/
theorem c7_reflection_sorted_deterministic_witness :
    ((List.Sorted (fun a b : NodeTable => a.name ≤ b.name) sampleSchema.nodeTables ∧
      List.Sorted (fun a b : RelTable => a.name ≤ b.name) sampleSchema.relTables) ∧
      getSchema connB = Except.ok sampleSchema) :=
  ⟨(c7_reflection_sorted_deterministic connA sampleSchema rfl).1,
    (c7_reflection_sorted_deterministic connA sampleSchema rfl).2 connB
      [⟨"Person", "NODE"⟩, ⟨"KNOWS", "REL"⟩] [⟨"KNOWS", "REL"⟩, ⟨"Person", "NODE"⟩]
      rfl rfl rfl rfl (by decide) (by decide)⟩

/-- C8: a failure fetching one table's metadata is absorbed and that table
skipped while every other table is reflected (the schema equals the
reflection of the catalog without the broken table), whereas a failure of
the initial table listing aborts the whole reflection and surfaces through
the tool handler as an operation-level failure. -/
theorem c8_partial_failure (cfg : ServerConfig) (c : Conn) (args : Option ToolArgs) :
    (∀ m, c.showTables = Except.error m →
      getSchema c = Except.error m ∧
      callToolHandler cfg c ⟨some ⟨"getSchema", args⟩⟩ =
        Except.ok ⟨[⟨"text", "Error: " ++ m⟩], true⟩) ∧
    (∀ pre t post em, c.showTables = Except.ok (pre ++ t :: post) →
      c.tableInfo t.name = Except.error em →
      getSchema c = Except.ok (reflectTables c (pre ++ post))) := by
  constructor
  · intro m hm
    have hg : getSchema c = Except.error m := by
      simp [getSchema, hm]
    refine ⟨hg, ?_⟩
    unfold callToolHandler callToolBody
    simp [hg]
  · intro pre t post em hst hinfo
    have hnone : processTable c t = none := by
      simp [processTable, hinfo]
    simp [getSchema, hst, reflectTables, nodeTablesOf, relTablesOf,
      List.filterMap_append, List.filterMap_cons, hnone]

/-- C8, witness: the listing failure surfaced for a down engine, and the
broken sample table skipped while the rest reflect. -/
theorem c8_partial_failure_witness :
    (getSchema downConn = Except.error "Connection is closed" ∧
      callToolHandler cfg0 downConn ⟨some ⟨"getSchema", none⟩⟩ =
        Except.ok ⟨[⟨"text", "Error: Connection is closed"⟩], true⟩) ∧
    getSchema brokenTableConn =
      Except.ok (reflectTables brokenTableConn
        [⟨"Person", "NODE"⟩, ⟨"KNOWS", "REL"⟩]) :=
  ⟨(c8_partial_failure cfg0 downConn none).1 "Connection is closed" rfl,
    (c8_partial_failure cfg0 brokenTableConn none).2
      [⟨"Person", "NODE"⟩] ⟨"Broken", "NODE"⟩ [⟨"KNOWS", "REL"⟩]
      "Catalog exception" rfl rfl⟩

/-- C9: for any question that is non-empty after trimming, rendering the
prompt re-reflects the schema from the current engine state and embeds
`stringifySchema s` between the two fixed template parts; the direct
`getSchema` operation at the same engine state returns exactly
`stringifySchema s` as its payload — so the schema text extracted from the
rendered prompt is byte-identical to the direct call's payload. -/
theorem c9_prompt_roundtrip (cfg : ServerConfig) (c : Conn) (q0 : String)
    (s : Schema) (h0 : q0 ≠ "") (ht : jsTrim q0 ≠ "")
    (hs : getSchema c = Except.ok s) :
    getPromptHandler c ⟨some ⟨"generateKuzuCypher", some ⟨some q0⟩⟩⟩ =
      Except.ok ⟨[⟨"user", ⟨"text",
        promptHead ++ stringifySchema s ++ promptMid ++ jsTrim q0 ++ "\n"⟩⟩]⟩ ∧
    callToolHandler cfg c ⟨some ⟨"getSchema", none⟩⟩ =
      Except.ok ⟨[⟨"text", stringifySchema s⟩], false⟩ := by
  constructor
  · unfold getPromptHandler
    simp [h0, ht, hs, getPrompt]
  · unfold callToolHandler callToolBody
    simp [hs]

/-- C9, witness at the sample database and a concrete question. -/
theorem c9_prompt_roundtrip_witness :
    getPromptHandler connA
        ⟨some ⟨"generateKuzuCypher", some ⟨some " Who knows whom? "⟩⟩⟩ =
      Except.ok ⟨[⟨"user", ⟨"text",
        promptHead ++ stringifySchema sampleSchema ++ promptMid
          ++ jsTrim " Who knows whom? " ++ "\n"⟩⟩]⟩ ∧
    callToolHandler cfg0 connA ⟨some ⟨"getSchema", none⟩⟩ =
      Except.ok ⟨[⟨"text", stringifySchema sampleSchema⟩], false⟩ :=
  c9_prompt_roundtrip cfg0 connA " Who knows whom? " sampleSchema
    (by decide) (by decide) rfl

/-- C10: for every configuration, every engine state and every arguments
mapping — including one that omits the `question` argument declared required
in the catalog — the `generateKuzuCypher` tool branch (lines 367–379)
returns the same fixed success payload with `isError: false`.  The result
does not depend on the engine state (the branch makes no engine call) and no
argument is inspected (no validation). -/
theorem c10_generate_cypher_stub (cfg : ServerConfig) (conn : Conn)
    (args : Option ToolArgs) :
    callToolHandler cfg conn ⟨some ⟨"generateKuzuCypher", args⟩⟩ =
      Except.ok ⟨[⟨"text", generateCypherStubText⟩], false⟩ := by
  rfl

end KuzuMcp
